import Mathlib

/-!
Verification of the QR-code generator CLI (src/make_qr.py).

This file gives a shallow embedding of the script: the URL validator
(which delegates to the standard library function urllib.parse.urlparse,
modelled here character by character), the error-correction-level mapper,
the reachability probe, the two artifact generators, and the main entry
point, together with theorems settling the specified properties.

Modelling conventions:
  - The network is an oracle: the outcome of the HEAD request issued by
    check_reachability is supplied as an explicit value of type NetOutcome
    (either an exception or a response carrying its status code), because
    the request itself is external I/O.
  - The QR encoder library (qrcode) is external; an output file is
    represented by the full tuple of parameters the script passes to the
    encoder and renderer (Artifact), since the encoder is deterministic
    in those parameters.
  - Path.resolve depends on the process working directory, so it is a
    function parameter (resolve) of the entry point.
  - The URL validator delegates to urllib.parse.urlparse, which is
    modelled character by character after the CPython 3.11+ source,
    including its three internal error paths: the unbalanced-bracket
    check, the bracketed-host validation (ipaddress-based, modelled in
    full), and the NFKC netloc check. NFKC normalization itself
    (unicodedata) is a fixed external Unicode table and is passed in as
    a function parameter (nfkc), applied exactly where CPython applies
    it; every theorem quantifies over it, and closed statements are
    evaluated on ASCII netlocs, which _checknetloc accepts before ever
    applying it.
  - Printed lines are represented as an inductive type OutLine with one
    constructor per print statement of the script, carrying the data the
    corresponding f-string interpolates.
  - Python float timeout values are only threaded through to the probe
    (whose outcome the oracle supplies), never inspected arithmetically,
    so they are represented by a Nat.
-/

namespace MakeQr

/-- Characters removed by Python str.strip() with no argument: exactly the
characters c with c.isspace() true (ASCII whitespace, the C1 separators,
NEL, NBSP, and the Unicode space separators). -/
def pyIsSpace (c : Char) : Bool :=
  [' ', '\t', '\n', '\r', '\x0b', '\x0c', '\x1c', '\x1d', '\x1e', '\x1f',
   '\x85', '\xa0', '\u1680', '\u2000', '\u2001', '\u2002', '\u2003',
   '\u2004', '\u2005', '\u2006', '\u2007', '\u2008', '\u2009', '\u200a',
   '\u2028', '\u2029', '\u202f', '\u205f', '\u3000'].contains c

/-- Python str.strip() with no argument: drop leading and trailing
whitespace characters. -/
def pyStrip (s : String) : String :=
  String.mk (((s.data.dropWhile pyIsSpace).reverse.dropWhile pyIsSpace).reverse)

/-- Python str.upper() restricted to ASCII case mapping. The script only
compares the result against the one-letter strings L, M, Q, H, and no
non-ASCII character uppercases to a single ASCII letter, so the
restriction does not change any comparison made by the script. -/
def pyUpper (s : String) : String :=
  String.mk (s.data.map Char.toUpper)

/-- Error raised by URL validation. Python raises ValueError in every
case; the constructors record which raise statement built the message
and the data its f-string interpolates:
  invalidUrl url      raised by validate_url itself,
                      "URL invalide: {url!r}. Exemple valide: ..."
  invalidIPv6         raised by urlsplit on an unbalanced bracket,
                      the fixed text "Invalid IPv6 URL"
  ipvFutureInvalid    raised by _check_bracketed_host, the fixed text
                      "IPvFuture address is invalid"
  ipv4InBrackets      raised by _check_bracketed_host, the fixed text
                      "An IPv4 address cannot be in brackets"
  notAnIPAddress h    raised by ipaddress.ip_address inside
                      _check_bracketed_host, "{h!r} does not appear to
                      be an IPv4 or IPv6 address"
  invalidNetlocNFKC n raised by _checknetloc, "netloc '{n}' contains
                      invalid characters under NFKC normalization".
Only the first carries the URL string; the parser errors carry at most
the netloc or the bracketed host, never the full URL. -/
inductive ValErr
  | invalidUrl (url : String)
  | invalidIPv6
  | ipvFutureInvalid
  | ipv4InBrackets
  | notAnIPAddress (host : String)
  | invalidNetlocNFKC (netloc : String)
deriving DecidableEq

/-- Whether a validation error carries (names) the offending URL string:
only the invalidUrl message interpolates the URL; the messages raised
inside the parser interpolate at most the netloc or the bracketed host,
which are proper substrings, never the URL string itself. -/
def errCarries : ValErr → String → Bool
  | ValErr.invalidUrl u, s => u == s
  | _, _ => false

/-- Whether a validation error was raised inside urllib.parse itself
(rather than by the scheme/netloc test of validate_url). -/
def fromParser : ValErr → Bool
  | ValErr.invalidUrl _ => false
  | _ => true

/-- Characters allowed in a URI scheme by urllib.parse
(scheme_chars = letters, digits, plus, minus, dot). -/
def schemeChar (c : Char) : Bool :=
  c.isAlpha || c.isDigit || c == '+' || c == '-' || c == '.'

/-- The frozenset _HEX_DIGITS of the ipaddress module. -/
def hexDigitChar (c : Char) : Bool :=
  "0123456789ABCDEFabcdef".data.contains c

/-- Numeric value of a run of decimal digits (only applied to strings
already checked to be all ASCII digits). -/
def digitsVal (p : List Char) : Nat :=
  p.foldl (fun acc c => 10 * acc + (c.toNat - 48)) 0

/-- Whether ipaddress._parse_octet accepts the string: nonempty, all
ASCII decimal digits, at most 3 characters, no leading zero unless the
octet is exactly 0, and value at most 255. -/
def _parse_octet_ok (p : List Char) : Bool :=
  !p.isEmpty && p.all Char.isDigit && decide (p.length ≤ 3) &&
    (p == ['0'] || !(p.headD ' ' == '0')) &&
    decide (digitsVal p ≤ 255)

/-- Whether ipaddress.IPv4Address accepts the string: no slash, then
_ip_int_from_string requires a nonempty string of exactly 4
dot-separated octets, each accepted by _parse_octet. -/
def ipv4_address_ok (s : List Char) : Bool :=
  !s.contains '/' && !s.isEmpty &&
    (let octets := s.splitOn '.'
     decide (octets.length = 4) && octets.all _parse_octet_ok)

/-- Whether ipaddress._parse_hextet accepts the string: hex digits
only, at most 4 characters, and nonempty (int of an empty string
raises). -/
def _parse_hextet_ok (p : List Char) : Bool :=
  p.all hexDigitChar && decide (p.length ≤ 4) && !p.isEmpty

/-- The IPv4-suffix step of the IPv6 _ip_int_from_string: when the last
colon-separated part contains a dot it must be a valid IPv4 address and
is replaced by two hextets (the code appends two hex renderings, which
are always valid hextets, rendered here as 0); none signals the
AddressValueError raised on an invalid suffix. -/
def expandV4 (parts : List (List Char)) : Option (List (List Char)) :=
  match parts.getLast? with
  | some last =>
    if last.contains '.' then
      if ipv4_address_ok last then some (parts.dropLast ++ [['0'], ['0']])
      else none
    else some parts
  | none => some parts

/-- Interior indices (neither first nor last) of the part list holding
an empty part: the candidates for the one skip position a double colon
introduces. -/
def interiorEmpties (parts : List (List Char)) : List Nat :=
  (List.range parts.length).filter
    (fun i => decide (0 < i) && decide (i + 1 < parts.length) &&
      (parts.getD i ['x']).isEmpty)

/-- The skip analysis of the IPv6 _ip_int_from_string after the min,
IPv4-suffix and max checks: without a double colon there must be
exactly 8 parts with nonempty endpoints, all valid hextets; with one
skip position, an empty first part forces the skip to index 1 and an
empty last part forces it to the second-to-last index, at most 7 other
parts remain, and the parts on each side of the skip must be valid
hextets; two skip positions are rejected. -/
def ipv6PartsValid (parts : List (List Char)) : Bool :=
  match interiorEmpties parts with
  | [] =>
    decide (parts.length = 8) && !(parts.headD []).isEmpty &&
      !(parts.getLastD []).isEmpty && parts.all _parse_hextet_ok
  | [i] =>
    (match (if (parts.headD []).isEmpty then
              (if i = 1 then some 0 else none) else some i),
           (if (parts.getLastD []).isEmpty then
              (if i + 2 = parts.length then some 0 else none)
            else some (parts.length - i - 1)) with
     | some h, some l =>
       decide (h + l ≤ 7) && (parts.take h).all _parse_hextet_ok &&
         (parts.drop (parts.length - l)).all _parse_hextet_ok
     | _, _ => false)
  | _ => false

/-- Whether the IPv6 _ip_int_from_string accepts the string: nonempty,
split on colons into at least 3 parts, optional IPv4 suffix expansion,
at most 9 parts, then the skip analysis. -/
def ipv6_int_ok (addr : List Char) : Bool :=
  !addr.isEmpty &&
    (let parts0 := addr.splitOn ':'
     decide (3 ≤ parts0.length) &&
       (match expandV4 parts0 with
        | none => false
        | some parts => decide (parts.length ≤ 9) && ipv6PartsValid parts))

/-- Whether ipaddress.IPv6Address accepts the string: no slash, an
optional percent-separated scope id (nonempty, no further percent sign)
split off first, then _ip_int_from_string on the remainder. -/
def ipv6_address_ok (s : List Char) : Bool :=
  !s.contains '/' &&
    (if s.contains '%' then
       !((s.dropWhile (fun c => !(c == '%'))).drop 1).isEmpty &&
         !((s.dropWhile (fun c => !(c == '%'))).drop 1).contains '%' &&
         ipv6_int_ok (s.takeWhile (fun c => !(c == '%')))
     else ipv6_int_ok s)

/-- The regular expression of _check_bracketed_host for IPvFuture hosts
applied to the text after the leading v: one or more hex digits, a dot,
then one or more further characters none of which is a newline (the
dot of the pattern does not match a newline and backslash-Z anchors at
the very end). Backtracking over the hex run cannot help because a dot
is not a hex digit, so the maximal run is equivalent. -/
def ipvFutureTail_ok (t : List Char) : Bool :=
  !(t.takeWhile hexDigitChar).isEmpty &&
    (match t.dropWhile hexDigitChar with
     | '.' :: r => !r.isEmpty && r.all (fun c => !(c == '\n'))
     | _ => false)

/-- The function _check_bracketed_host of urllib.parse (CPython 3.11+):
a host starting with v must match the IPvFuture pattern; any other host
is given to ipaddress.ip_address, which tries IPv4 then IPv6 and raises
ValueError when both fail; a successful IPv4 parse is then rejected
because an IPv4 address cannot be bracketed. -/
def _check_bracketed_host (host : List Char) : Except ValErr Unit :=
  match host with
  | 'v' :: t =>
    if ipvFutureTail_ok t then Except.ok ()
    else Except.error ValErr.ipvFutureInvalid
  | _ =>
    if ipv4_address_ok host then Except.error ValErr.ipv4InBrackets
    else if ipv6_address_ok host then Except.ok ()
    else Except.error (ValErr.notAnIPAddress (String.mk host))

/-- The netloc with the at sign, colon, hash and question mark removed,
as _checknetloc builds it before normalizing (four sequential
str.replace calls). -/
def netlocStripped (netloc : List Char) : String :=
  String.mk (netloc.filter
    (fun c => !(c == '@' || c == ':' || c == '#' || c == '?')))

/-- The function _checknetloc of urllib.parse (present since CPython
3.6.9/3.7.3): an empty or pure-ASCII netloc passes; otherwise the
stripped netloc is NFKC-normalized and the netloc is rejected when
normalization changed it and the normal form contains a slash, question
mark, hash, at sign or colon. NFKC normalization (unicodedata) is the
one external primitive here, a fixed Unicode table; it is passed in as
the function parameter nfkc, exactly as the filesystem resolver is
passed to main, and is only ever applied to netlocs that contain a
non-ASCII character. -/
def _checknetloc (nfkc : String → String) (netloc : List Char) : Except ValErr Unit :=
  if netloc.isEmpty || netloc.all (fun c => decide (c.val < 128)) then
    Except.ok ()
  else if netlocStripped netloc = nfkc (netlocStripped netloc) then
    Except.ok ()
  else if (nfkc (netlocStripped netloc)).data.any
      (fun c => c == '/' || c == '?' || c == '#' || c == '@' || c == ':') then
    Except.error (ValErr.invalidNetlocNFKC (String.mk netloc))
  else Except.ok ()

/-- The bracketed host _check_bracketed_host is applied to:
netloc.partition of the opening bracket, second component, then
partition of the closing bracket, first component - the text after the
first opening bracket up to the next closing bracket. -/
def bracketedHost (netloc : List Char) : List Char :=
  ((netloc.dropWhile (fun c => !(c == '['))).drop 1).takeWhile
    (fun c => !(c == ']'))

/-- The helper _splitnetloc of urllib.parse: the netloc is the run of
characters after the two slashes up to the next slash, question mark or
hash. -/
def _splitnetloc (r : List Char) : List Char :=
  r.takeWhile (fun c => !(c == '/' || c == '?' || c == '#'))

/-- The scheme-splitting step of urlsplit: when the first colon is
preceded by a nonempty run of scheme characters starting with an ASCII
letter, split off the scheme lowercased; otherwise the scheme is empty
and the input is left whole. -/
def splitScheme (cs : List Char) : String × List Char :=
  match cs.findIdx? (fun c => c == ':') with
  | some i =>
    if 0 < i ∧ (cs.headD ' ').isAlpha ∧ (cs.take i).all schemeChar then
      (String.mk ((cs.take i).map Char.toLower), cs.drop (i + 1))
    else ("", cs)
  | none => ("", cs)

/-- The checks urlsplit runs on a nonempty netloc, in source order:
raise ValueError("Invalid IPv6 URL") when the netloc contains an
opening square bracket without a closing one or vice versa; when it
contains both, validate the bracketed host; finally (after the
fragment and query splits, which cannot touch the netloc) run
_checknetloc. -/
def netlocChecks (nfkc : String → String) (scheme : String) (netloc : List Char) :
    Except ValErr (String × String) :=
  if (netloc.contains '[' ∧ ¬ netloc.contains ']') ∨
     (netloc.contains ']' ∧ ¬ netloc.contains '[') then
    Except.error ValErr.invalidIPv6
  else
    match (if netloc.contains '[' ∧ netloc.contains ']' then
             _check_bracketed_host (bracketedHost netloc)
           else Except.ok ()) with
    | Except.error e => Except.error e
    | Except.ok _ =>
      match _checknetloc nfkc netloc with
      | Except.error e => Except.error e
      | Except.ok _ => Except.ok (scheme, String.mk netloc)

/-- The netloc step of urlsplit: when the remainder after the scheme
starts with two slashes, take the netloc up to the next delimiter and
run the netloc checks; otherwise the netloc is empty and _checknetloc
passes it immediately. -/
def netlocSplit (nfkc : String → String) :
    String × List Char → Except ValErr (String × String)
  | (scheme, '/' :: '/' :: r) => netlocChecks nfkc scheme (_splitnetloc r)
  | (scheme, _) => Except.ok (scheme, "")

/-- Model of urllib.parse.urlsplit restricted to the two components
validate_url reads, following the CPython source:
  1. strip leading C0-control-or-space characters (codepoints up to 0x20);
  2. remove every tab, carriage return and line feed;
  3. if the first colon is preceded by a nonempty run of scheme
     characters starting with an ASCII letter, split off the scheme and
     lowercase it;
  4. if the remainder starts with two slashes, the netloc is the run up
     to the next slash, question mark or hash; raise
     ValueError("Invalid IPv6 URL") when the netloc contains an opening
     square bracket without a closing one or vice versa;
  5. when the netloc contains both brackets, validate the bracketed
     host (_check_bracketed_host, CPython 3.11+);
  6. run the NFKC check _checknetloc on the netloc, with the
     normalization function passed in as the parameter nfkc.
Path, params, query and fragment are split from the remainder after the
netloc and before step 6, so they cannot affect the two components
returned here and are not modelled. -/
def urlsplit (nfkc : String → String) (url : String) :
    Except ValErr (String × String) :=
  netlocSplit nfkc (splitScheme
    ((url.data.dropWhile (fun c => c.val ≤ 32)).filter
      (fun c => !(c == '\t' || c == '\r' || c == '\n'))))

/-- validate_url from the script: parse the URL, then reject unless the
scheme is http or https and the netloc is nonempty. Every ValueError
raised inside urlsplit itself (unbalanced bracket, bracketed-host
validation, NFKC netloc check) propagates out unchanged. -/
def validate_url (nfkc : String → String) (url : String) : Except ValErr Unit :=
  match urlsplit nfkc url with
  | Except.error e => Except.error e
  | Except.ok (scheme, netloc) =>
    if scheme ∉ (["http", "https"] : List String) ∨ netloc = "" then
      Except.error (ValErr.invalidUrl url)
    else
      Except.ok ()

/-- Constant ERROR_CORRECT_L of qrcode.constants. -/
def ERROR_CORRECT_L : Nat := 1
/-- Constant ERROR_CORRECT_M of qrcode.constants. -/
def ERROR_CORRECT_M : Nat := 0
/-- Constant ERROR_CORRECT_Q of qrcode.constants. -/
def ERROR_CORRECT_Q : Nat := 3
/-- Constant ERROR_CORRECT_H of qrcode.constants. -/
def ERROR_CORRECT_H : Nat := 2

/-- The mapper _map_ec_level of the script. The Python body first
evaluates (level or "Q"): for a value of type str this substitutes "Q"
exactly when level is the empty string (it would also catch None, which
the str annotation excludes). It then strips and uppercases, and looks
the result up in the dict; an absent key raises
ValueError("Niveau ECC invalide: {level}. Choisir parmi L, M, Q, H."),
represented here by Except.error applied to the normalized level the
message interpolates. -/
def _map_ec_level (level : String) : Except String Nat :=
  let l := pyUpper (pyStrip (if level = "" then "Q" else level))
  if l = "L" then Except.ok ERROR_CORRECT_L
  else if l = "M" then Except.ok ERROR_CORRECT_M
  else if l = "Q" then Except.ok ERROR_CORRECT_Q
  else if l = "H" then Except.ok ERROR_CORRECT_H
  else Except.error l

/-- Exception from the underlying HEAD request: the catch-all except
clause of check_reachability sees some exception object; the constructors
list the kinds the specification enumerates plus a catch-all. -/
inductive NetExc
  | timeout
  | dnsFailure
  | connectionRefused
  | malformedResponse
  | other (msg : String)
deriving DecidableEq

/-- An HTTP response as read by check_reachability: urllib HTTP(S)
responses always expose a status attribute, modelled as the status code. -/
structure HttpResp where
  status : Nat
deriving DecidableEq

/-- Outcome of urllib.request.urlopen for one request: a response, or an
exception (raised while building the request, connecting, or reading). -/
abbrev NetOutcome := Except NetExc HttpResp

/-- check_reachability from the script: send a HEAD request (the outcome
of which the oracle net supplies) and return whether the status is in
the interval from 200 inclusive to 400 exclusive; the catch-all except
clause maps every exception to false. The url and timeout arguments are
consumed by the external request itself and never inspected here. -/
def check_reachability (url : String) (timeout : Nat) (net : NetOutcome) : Bool :=
  match net with
  | Except.ok resp => decide (200 ≤ resp.status ∧ resp.status < 400)
  | Except.error _ => false

/-- The frozen dataclass QRConfig of the script, with its field defaults. -/
structure QRConfig where
  url : String := "https://artbeaurescence.sn"
  box_size : Int := 10
  border : Int := 4
  ec_level : String := "Q"
  fill_color : String := "black"
  back_color : String := "white"
  png_path : Option String := some "artbeaurescence_qr.png"
  svg_path : Option String := none
  check_online : Bool := true
  timeout_s : Nat := 5
deriving DecidableEq

/-- A file produced by the external qrcode encoder and renderer,
identified by every parameter the script passes to the library; the
encoding is deterministic in these (version is always auto-selected). -/
inductive Artifact
  | png (url : String) (ec : Nat) (box_size border : Int) (fill back : String)
  | svg (url : String) (ec : Nat) (box_size border : Int)
deriving DecidableEq

/-- make_qr_png from the script: skip when no PNG path is set; otherwise
map the error-correction level (a ValueError here propagates, as in the
source), build and save the PNG (creating parent directories), and
return the path. The second component lists the file writes performed. -/
def make_qr_png (cfg : QRConfig) :
    Except String (Option String × List (String × Artifact)) :=
  match cfg.png_path with
  | none => Except.ok (none, [])
  | some p =>
    match _map_ec_level cfg.ec_level with
    | Except.error e => Except.error e
    | Except.ok ec =>
      Except.ok (some p,
        [(p, Artifact.png cfg.url ec cfg.box_size cfg.border cfg.fill_color cfg.back_color)])

/-- make_qr_svg from the script, analogous to make_qr_png; box_size is
passed to the library for interface symmetry even though the SVG
renderer does not use it. -/
def make_qr_svg (cfg : QRConfig) :
    Except String (Option String × List (String × Artifact)) :=
  match cfg.svg_path with
  | none => Except.ok (none, [])
  | some p =>
    match _map_ec_level cfg.ec_level with
    | Except.error e => Except.error e
    | Except.ok ec =>
      Except.ok (some p, [(p, Artifact.svg cfg.url ec cfg.box_size cfg.border)])

/-- One line printed by the script, one constructor per print statement,
carrying the data its f-string interpolates:
  info b        "[Info] Verification en ligne de l URL: OK/NON JOIGNABLE"
  okPng p       "[OK] PNG genere: {p}"
  okSvg p       "[OK] SVG genere: {p}"
  done          the final "[Termine] ..." line
  errValidation e   "[ERREUR] {e}" on stderr
  warnNoOutput  "[ATTENTION] Aucune sortie demandee ..." on stderr
  usageError    the usage and error text argparse prints on stderr
  traceback m   the interpreter traceback of an uncaught exception. -/
inductive OutLine
  | info (reachable : Bool)
  | okPng (path : String)
  | okSvg (path : String)
  | done
  | errValidation (e : ValErr)
  | warnNoOutput
  | usageError
  | traceback (msg : String)
deriving DecidableEq

/-- Whether a line is the informational reachability line. -/
def isInfoLine : OutLine → Bool
  | OutLine.info _ => true
  | _ => false

/-- Observable result of one CLI run: process exit code, files written
(path and artifact), stdout lines and stderr lines in print order. -/
structure MainRes where
  exitCode : Nat
  written : List (String × Artifact)
  stdout : List OutLine
  stderr : List OutLine
deriving DecidableEq

/-- Command-line arguments of the script after argparse type conversion,
with the argparse defaults of parse_args as field defaults. -/
structure Args where
  url : String := "https://artbeaurescence.sn"
  png : String := "artbeaurescence_qr.png"
  svg : String := ""
  ec_level : String := "Q"
  box_size : Int := 10
  border : Int := 4
  no_check : Bool := false
  timeout : Nat := 5
deriving DecidableEq

/-- parse_args from the script: the only value argparse validates beyond
type conversion is the ec-level choice list (choices=list("LMQH"), the
exact uppercase letters). On a bad choice argparse prints usage and an
error to stderr and exits the process with status 2. -/
def parse_args (a : Args) : Except Unit Args :=
  if a.ec_level ∈ (["L", "M", "Q", "H"] : List String) then Except.ok a
  else Except.error ()

/-- The generation-and-report phase of main (lines after the optional
probe): build the QRConfig, run make_qr_png then make_qr_svg (an
uncaught ValueError aborts the process with the interpreter exit code 1
and a traceback on stderr), print one OK line per artifact, then either
warn and return 1 when neither output was produced or print the final
line and return 0. -/
def genPhase (a : Args) (png_path svg_path : Option String) : MainRes :=
  let cfg : QRConfig :=
    { url := a.url, box_size := a.box_size, border := a.border,
      ec_level := a.ec_level, png_path := png_path, svg_path := svg_path,
      check_online := !a.no_check, timeout_s := a.timeout }
  match make_qr_png cfg with
  | Except.error e => ⟨1, [], [], [OutLine.traceback e]⟩
  | Except.ok (outPng, wPng) =>
    match make_qr_svg cfg with
    | Except.error e => ⟨1, wPng, [], [OutLine.traceback e]⟩
    | Except.ok (outSvg, wSvg) =>
      let okLines :=
        (match outPng with | some p => [OutLine.okPng p] | none => []) ++
        (match outSvg with | some p => [OutLine.okSvg p] | none => [])
      if outPng = none ∧ outSvg = none then
        ⟨1, wPng ++ wSvg, okLines, [OutLine.warnNoOutput]⟩
      else
        ⟨0, wPng ++ wSvg, okLines ++ [OutLine.done], []⟩

/-- Body of main after argparse: compute the output paths (empty or
whitespace-only strings disable an output, otherwise the path is
resolved against the working directory via the resolve parameter),
validate the URL (on ValueError print "[ERREUR] {e}" to stderr and
return 2), unless no_check probe reachability and print the
informational line, then run the generation phase. -/
def main_parsed (nfkc : String → String) (resolve : String → String)
    (a : Args) (net : NetOutcome) : MainRes :=
  let png_path := if pyStrip a.png = "" then none else some (resolve a.png)
  let svg_path := if pyStrip a.svg = "" then none else some (resolve a.svg)
  match validate_url nfkc a.url with
  | Except.error e => ⟨2, [], [], [OutLine.errValidation e]⟩
  | Except.ok _ =>
    let infoLines :=
      if a.no_check then []
      else [OutLine.info (check_reachability a.url a.timeout net)]
    let g := genPhase a png_path svg_path
    ⟨g.exitCode, g.written, infoLines ++ g.stdout, g.stderr⟩

/-- main from the script: argparse (exit 2 on a rejected ec-level
choice, before anything else runs), then the parsed body. -/
def main (nfkc : String → String) (resolve : String → String)
    (a : Args) (net : NetOutcome) : MainRes :=
  match parse_args a with
  | Except.error _ => ⟨2, [], [], [OutLine.usageError]⟩
  | Except.ok a => main_parsed nfkc resolve a net

/-- A concrete network oracle outcome, used to instantiate closed
statements. -/
def netSample : NetOutcome := Except.error NetExc.timeout

/-- A concrete stand-in for the NFKC normalization function, used only
to instantiate closed statements. Every closed statement below
evaluates the model on URLs whose netloc is pure ASCII, and
_checknetloc accepts such a netloc before ever applying the
normalization function, so any function in this position yields the
behavior of the real normalization there. -/
def nfkcSample : String → String := fun s => s

/-- The argparse defaults as an Args value. -/
def argsDefault : Args := {}

/-- Decidable equality for Except values, used to evaluate the model at
concrete inputs. -/
instance exceptDecEq {ε α : Type} [DecidableEq ε] [DecidableEq α] :
    DecidableEq (Except ε α)
  | Except.error a, Except.error b =>
    if h : a = b then isTrue (by rw [h]) else
      isFalse (fun hc => h (by cases hc; rfl))
  | Except.error a, Except.ok b => isFalse (fun hc => Except.noConfusion hc)
  | Except.ok a, Except.error b => isFalse (fun hc => Except.noConfusion hc)
  | Except.ok a, Except.ok b =>
    if h : a = b then isTrue (by rw [h]) else
      isFalse (fun hc => h (by cases hc; rfl))

/-- A parser error never carries the URL: errCarries is false on every
constructor other than invalidUrl. -/
theorem fromParser_not_carries (e : ValErr) (s : String)
    (h : fromParser e = true) : errCarries e s = false := by
  cases e <;> simp_all [fromParser, errCarries]

/-- Every error of the bracketed-host check was raised inside the
parser. -/
theorem _check_bracketed_host_error (host : List Char) (e : ValErr)
    (h : _check_bracketed_host host = Except.error e) : fromParser e = true := by
  unfold _check_bracketed_host at h
  repeat' split at h
  all_goals
    first
    | exact Except.noConfusion h
    | (injection h with h2; subst h2; rfl)

/-- Every error of the NFKC netloc check was raised inside the
parser. -/
theorem _checknetloc_error (nfkc : String → String) (netloc : List Char)
    (e : ValErr) (h : _checknetloc nfkc netloc = Except.error e) :
    fromParser e = true := by
  unfold _checknetloc at h
  repeat' split at h
  all_goals
    first
    | exact Except.noConfusion h
    | (injection h with h2; subst h2; rfl)

/-- Every error of the netloc check sequence was raised inside the
parser. -/
theorem netlocChecks_error (nfkc : String → String) (sc : String)
    (nl : List Char) (e : ValErr)
    (h : netlocChecks nfkc sc nl = Except.error e) : fromParser e = true := by
  unfold netlocChecks at h
  split at h
  · obtain rfl : ValErr.invalidIPv6 = e := by injection h
    rfl
  · split at h
    · rename_i e2 heq
      obtain rfl : e2 = e := by injection h
      split at heq
      · exact _check_bracketed_host_error _ _ heq
      · exact Except.noConfusion heq
    · rename_i u heq
      split at h
      · rename_i e2 heq2
        obtain rfl : e2 = e := by injection h
        exact _checknetloc_error _ _ _ heq2
      · exact Except.noConfusion h

/-- Every error raised inside the netloc step was raised inside the
parser. -/
theorem netlocSplit_error (nfkc : String → String) (p : String × List Char)
    (e : ValErr) (h : netlocSplit nfkc p = Except.error e) :
    fromParser e = true := by
  obtain ⟨sc, cs⟩ := p
  unfold netlocSplit at h
  split at h
  · exact netlocChecks_error _ _ _ _ h
  · exact Except.noConfusion h

/-- Every error raised inside urlsplit itself was raised inside the
parser (unbalanced bracket, bracketed-host validation, or NFKC netloc
check), never the scheme/netloc ValueError of validate_url. -/
theorem urlsplit_error (nfkc : String → String) (s : String) (e : ValErr)
    (h : urlsplit nfkc s = Except.error e) : fromParser e = true :=
  netlocSplit_error nfkc _ e h

/-- Every validation failure is either the ValueError of validate_url,
which interpolates the URL, or a ValueError raised inside the parser,
which does not. -/
theorem validate_url_error_shape (nfkc : String → String) (u : String)
    (e : ValErr) (h : validate_url nfkc u = Except.error e) :
    e = ValErr.invalidUrl u ∨ fromParser e = true := by
  unfold validate_url at h
  cases hu : urlsplit nfkc u with
  | error e2 =>
    simp only [hu] at h
    obtain rfl : e2 = e := by injection h
    exact Or.inr (urlsplit_error nfkc u _ hu)
  | ok pr =>
    obtain ⟨sc, nl⟩ := pr
    simp only [hu] at h
    by_cases hc : sc ∉ (["http", "https"] : List String) ∨ nl = ""
    · rw [if_pos hc] at h
      obtain rfl : ValErr.invalidUrl u = e := by injection h
      exact Or.inl rfl
    · rw [if_neg hc] at h
      exact Except.noConfusion h

/-- C1 (amended): for every normalization function, validation succeeds
exactly when the URI parse yields scheme http or https together with a
nonempty netloc; every other string raises a ValueError, and that error
carries the offending string except when the parser itself rejected the
string (unbalanced square bracket, bracketed-host validation, or the
NFKC netloc check), in which case the error does not carry it. The
check is purely syntactic: validate_url is a function of the string
and the fixed normalization table alone and takes no network input. -/
theorem c1_validate_url_amended (nfkc : String → String) (s : String) :
    (validate_url nfkc s = Except.ok () ↔
      ∃ pr : String × String, urlsplit nfkc s = Except.ok pr ∧
        pr.1 ∈ (["http", "https"] : List String) ∧ pr.2 ≠ "") ∧
    (validate_url nfkc s ≠ Except.ok () →
      validate_url nfkc s = Except.error (ValErr.invalidUrl s) ∨
      ∃ e, validate_url nfkc s = Except.error e ∧ fromParser e = true ∧
        errCarries e s = false) := by
  constructor
  · constructor
    · intro h
      unfold validate_url at h
      cases hu : urlsplit nfkc s with
      | error e2 =>
        simp only [hu] at h
        exact Except.noConfusion h
      | ok pr =>
        obtain ⟨sc, nl⟩ := pr
        simp only [hu] at h
        by_cases hc : sc ∉ (["http", "https"] : List String) ∨ nl = ""
        · rw [if_pos hc] at h
          exact Except.noConfusion h
        · push_neg at hc
          exact ⟨(sc, nl), rfl, hc.1, hc.2⟩
    · rintro ⟨⟨sc, nl⟩, hu, hmem, hnl⟩
      unfold validate_url
      simp only [hu]
      rw [if_neg (by push_neg; exact ⟨hmem, hnl⟩)]
  · intro hne
    cases hres : validate_url nfkc s with
    | ok u =>
      cases u
      exact absurd hres hne
    | error e =>
      rcases validate_url_error_shape nfkc s e hres with h | h
      · subst h
        exact Or.inl rfl
      · exact Or.inr ⟨e, rfl, h, fromParser_not_carries e s h⟩

/-- C1 counterexample: the claim states that every rejected string
raises a validation error carrying the offending string, but on the
input "http://[" the parser raises ValueError("Invalid IPv6 URL"),
which does not carry the string. -/
theorem c1_counterexample :
    validate_url nfkcSample "http://[" = Except.error ValErr.invalidIPv6 ∧
    errCarries ValErr.invalidIPv6 "http://[" = false :=
  ⟨rfl, rfl⟩

/-- C1 witness: the amended theorem evaluated at the concrete rejected
input "not-a-url". -/
theorem c1_witness :
    validate_url nfkcSample "not-a-url" =
      Except.error (ValErr.invalidUrl "not-a-url") ∨
    ∃ e, validate_url nfkcSample "not-a-url" = Except.error e ∧
      fromParser e = true ∧ errCarries e "not-a-url" = false :=
  (c1_validate_url_amended nfkcSample "not-a-url").2 (by decide)

/-- C2: the reachability probe is a total function into Bool, and every
exception of the underlying HEAD request (timeout, DNS failure,
connection refused, malformed response, or any other) is mapped to the
result false rather than propagated to the caller. -/
theorem c2_probe_never_throws (url : String) (timeout : Nat) (e : NetExc) :
    check_reachability url timeout (Except.error e) = false := rfl

/-- C7: when the HEAD request completes with a response, the probe
classifies the URL as reachable exactly when the response status lies
in the half-open interval from 200 inclusive to 400 exclusive. -/
theorem c7_reachable_iff (url : String) (timeout : Nat) (r : HttpResp) :
    check_reachability url timeout (Except.ok r) = true ↔
      200 ≤ r.status ∧ r.status < 400 := by
  simp [check_reachability]

/-- C6 (amended): for every nonempty selector whose stripped uppercased
form is L, M, Q or H the mapper returns the corresponding
qrcode.constants value, case-insensitively; every other nonempty
selector fails with a ValueError; the empty string is treated like an
unspecified selector and defaults to Q. -/
theorem c6_map_ec_level_amended (s : String) :
    (s ≠ "" → pyUpper (pyStrip s) = "L" → _map_ec_level s = Except.ok ERROR_CORRECT_L) ∧
    (s ≠ "" → pyUpper (pyStrip s) = "M" → _map_ec_level s = Except.ok ERROR_CORRECT_M) ∧
    (s ≠ "" → pyUpper (pyStrip s) = "Q" → _map_ec_level s = Except.ok ERROR_CORRECT_Q) ∧
    (s ≠ "" → pyUpper (pyStrip s) = "H" → _map_ec_level s = Except.ok ERROR_CORRECT_H) ∧
    (s ≠ "" → pyUpper (pyStrip s) ∉ (["L", "M", "Q", "H"] : List String) →
      ∃ m, _map_ec_level s = Except.error m) ∧
    _map_ec_level "" = Except.ok ERROR_CORRECT_Q := by
  refine ⟨?_, ?_, ?_, ?_, ?_, rfl⟩
  · intro hs hl
    simp [_map_ec_level, hs, hl]
  · intro hs hl
    simp [_map_ec_level, hs, hl]
  · intro hs hl
    simp [_map_ec_level, hs, hl]
  · intro hs hl
    simp [_map_ec_level, hs, hl]
  · intro hs hl
    simp only [List.mem_cons, List.not_mem_nil, not_or, or_false] at hl
    simp [_map_ec_level, hs, hl.1, hl.2.1, hl.2.2.1, hl.2.2.2]

/-- C6 counterexample: the claim states that every selector whose
stripped uppercased form lies outside L, M, Q, H fails, but the empty
string is such a selector and the mapper returns the Q constant for it
(the Python expression (level or "Q") substitutes the default). -/
theorem c6_counterexample :
    _map_ec_level "" = Except.ok ERROR_CORRECT_Q ∧
    pyUpper (pyStrip "") ∉ (["L", "M", "Q", "H"] : List String) :=
  ⟨rfl, by decide⟩

/-- C6 witness: the amended theorem evaluated at the concrete selector
" h ", which strips and uppercases to H. -/
theorem c6_witness : _map_ec_level " h " = Except.ok ERROR_CORRECT_H :=
  (c6_map_ec_level_amended " h ").2.2.2.1 (by decide) rfl

/-- C3: two runs of main with the same arguments and resolver that
differ only in the reachability outcome have the same exit code, write
the same files with the same artifacts, print the same stderr, and
print the same stdout apart from the informational reachability line. -/
theorem c3_probe_noninterference (nfkc : String → String)
    (resolve : String → String) (a : Args) (net1 net2 : NetOutcome) :
    (main nfkc resolve a net1).exitCode = (main nfkc resolve a net2).exitCode ∧
    (main nfkc resolve a net1).written = (main nfkc resolve a net2).written ∧
    (main nfkc resolve a net1).stderr = (main nfkc resolve a net2).stderr ∧
    (main nfkc resolve a net1).stdout.filter (fun l => !isInfoLine l) =
      (main nfkc resolve a net2).stdout.filter (fun l => !isInfoLine l) := by
  unfold main parse_args
  by_cases hc : a.ec_level ∈ (["L", "M", "Q", "H"] : List String)
  · simp only [if_pos hc]
    unfold main_parsed
    cases hv : validate_url nfkc a.url with
    | error e => simp
    | ok u =>
      by_cases hn : a.no_check <;>
        simp [hn, List.filter_append, isInfoLine]
  · rw [if_neg hc]
    simp

/-- C4 (amended): when the invocation passes argparse and its url
argument fails validation, main returns exit code 2, writes no file and
prints exactly one error line to stderr before any generation runs, and
independently of the network; the error names the invalid URL except
when the URI parser itself raised the ValueError (unbalanced bracket,
bracketed-host validation, or the NFKC netloc check), whose message
does not carry the URL. -/
theorem c4_invalid_url_amended (nfkc : String → String)
    (resolve : String → String) (a : Args) (net : NetOutcome) (e : ValErr)
    (hp : a.ec_level ∈ (["L", "M", "Q", "H"] : List String))
    (hv : validate_url nfkc a.url = Except.error e) :
    main nfkc resolve a net = ⟨2, [], [], [OutLine.errValidation e]⟩ ∧
    (e = ValErr.invalidUrl a.url ∨
      (fromParser e = true ∧ errCarries e a.url = false)) := by
  refine ⟨?_, ?_⟩
  · unfold main parse_args main_parsed
    simp [hp, hv]
  · rcases validate_url_error_shape nfkc a.url e hv with h | h
    · exact Or.inl h
    · exact Or.inr ⟨h, fromParser_not_carries e a.url h⟩

/-- C4 counterexample: on the invocation with url "http://[" (and the
default remaining arguments) main exits 2 and writes nothing, but the
single stderr line is the parser ValueError "Invalid IPv6 URL", which
does not name the invalid URL, contrary to the claim. -/
theorem c4_counterexample :
    main nfkcSample id { url := "http://[" } netSample =
      ⟨2, [], [], [OutLine.errValidation ValErr.invalidIPv6]⟩ ∧
    errCarries ValErr.invalidIPv6 "http://[" = false :=
  ⟨rfl, rfl⟩

/-- C4 witness: the amended theorem evaluated at the concrete invalid
url "not-a-url", where the stderr line does carry the URL. -/
theorem c4_witness :
    main nfkcSample id { url := "not-a-url" } netSample =
      ⟨2, [], [], [OutLine.errValidation (ValErr.invalidUrl "not-a-url")]⟩ :=
  (c4_invalid_url_amended nfkcSample id { url := "not-a-url" } netSample
    (ValErr.invalidUrl "not-a-url") (by decide) rfl).1

/-- C5: for an invocation that passes argparse and whose url validates,
main exits 1 exactly when both output path arguments are empty after
stripping (no artifact requested), in which case nothing is written;
otherwise it exits 0. -/
theorem c5_exit_codes (nfkc : String → String) (resolve : String → String)
    (a : Args) (net : NetOutcome)
    (hp : a.ec_level ∈ (["L", "M", "Q", "H"] : List String))
    (hv : validate_url nfkc a.url = Except.ok ()) :
    ((main nfkc resolve a net).exitCode = 1 ↔
      pyStrip a.png = "" ∧ pyStrip a.svg = "") ∧
    (pyStrip a.png = "" ∧ pyStrip a.svg = "" →
      (main nfkc resolve a net).written = []) ∧
    (¬(pyStrip a.png = "" ∧ pyStrip a.svg = "") →
      (main nfkc resolve a net).exitCode = 0) := by
  have hec : ∃ n, _map_ec_level a.ec_level = Except.ok n := by
    simp only [List.mem_cons, List.not_mem_nil, or_false] at hp
    rcases hp with h | h | h | h <;> rw [h] <;> exact ⟨_, rfl⟩
  obtain ⟨n, hn⟩ := hec
  unfold main parse_args main_parsed genPhase make_qr_png make_qr_svg
  by_cases hpng : pyStrip a.png = "" <;> by_cases hsvg : pyStrip a.svg = "" <;>
    simp [hp, hv, hn, hpng, hsvg]

/-- C5 witness: the theorem evaluated at a concrete invocation with a
valid url and both outputs disabled, which exits 1. -/
theorem c5_witness :
    (main nfkcSample id { url := "https://example.com", png := "", svg := "" }
      netSample).exitCode = 1 :=
  (c5_exit_codes nfkcSample id
    { url := "https://example.com", png := "", svg := "" }
    netSample (by decide) rfl).1.mpr ⟨rfl, rfl⟩

/-- C8: the scenario of the CLI invoked with url https://example.com, a
PNG output out.png and the no-check flag: for every resolver and every
network oracle the run exits 0, writes exactly the resolved out.png
artifact, prints exactly one OK-PNG line followed by the final line,
prints no reachability line, and never consults the network. -/
theorem c8_scenario (nfkc : String → String) (resolve : String → String)
    (net : NetOutcome) :
    main nfkc resolve
      { url := "https://example.com", png := "out.png", svg := "", no_check := true }
      net =
    ⟨0,
      [(resolve "out.png",
        Artifact.png "https://example.com" ERROR_CORRECT_Q 10 4 "black" "white")],
      [OutLine.okPng (resolve "out.png"), OutLine.done], []⟩ := rfl

/-- C9: an output path argument consisting only of whitespace disables
that output exactly as the empty string does, for the PNG and the SVG
argument alike: the whole observable run is identical. -/
theorem c9_whitespace_disables (nfkc : String → String)
    (resolve : String → String) (a : Args)
    (net : NetOutcome) (p : String) (hws : pyStrip p = "") :
    main nfkc resolve { a with png := p } net =
      main nfkc resolve { a with png := "" } net ∧
    main nfkc resolve { a with svg := p } net =
      main nfkc resolve { a with svg := "" } net := by
  have h0 : pyStrip "" = "" := rfl
  by_cases hc : a.ec_level ∈ (["L", "M", "Q", "H"] : List String) <;>
    constructor <;>
      simp [main, parse_args, main_parsed, genPhase, hws, h0, hc]

/-- C9 witness: the theorem evaluated at the concrete whitespace path
argument consisting of one space and one tab. -/
theorem c9_witness :
    main nfkcSample id { argsDefault with png := " \t" } netSample =
      main nfkcSample id { argsDefault with png := "" } netSample ∧
    main nfkcSample id { argsDefault with svg := " \t" } netSample =
      main nfkcSample id { argsDefault with svg := "" } netSample :=
  c9_whitespace_disables nfkcSample id argsDefault netSample " \t" (by decide)

/-- C10: an ec-level argument outside the exact uppercase choices L, M,
Q, H is rejected by argparse with exit code 2 before URL validation,
probing or generation runs (nothing is written or printed except the
usage error, for every url and network oracle), even though the mapper
itself accepts lowercase selectors, as the constant second conjunct
shows. -/
theorem c10_argparse_rejects (nfkc : String → String)
    (resolve : String → String) (a : Args) (net : NetOutcome)
    (h : a.ec_level ∉ (["L", "M", "Q", "H"] : List String)) :
    main nfkc resolve a net = ⟨2, [], [], [OutLine.usageError]⟩ ∧
    _map_ec_level "q" = Except.ok ERROR_CORRECT_Q := by
  refine ⟨?_, rfl⟩
  unfold main parse_args
  simp [h]

/-- C10 witness: the theorem evaluated at the concrete lowercase
selector q, which argparse rejects. -/
theorem c10_witness :
    main nfkcSample id { argsDefault with ec_level := "q" } netSample =
      ⟨2, [], [], [OutLine.usageError]⟩ :=
  (c10_argparse_rejects nfkcSample id { argsDefault with ec_level := "q" }
    netSample (by decide)).1

end MakeQr
